import Mathlib

/-!
Verification of the x-map news aggregation service against its specification.

The development shallowly embeds the two HTTP route handlers that the claims
concern:

* `src/app/api/geocode/route.ts` — the location resolver endpoint with its
  in-memory cache and per-IP rate limiter (`checkRateLimit`, `GET`);
* `src/app/api/grok/breaking-news/route.ts` — the streaming news discovery
  engine (`fetchRealTweets`, the cache lookup, and the discovery loop of
  `GET`).

JavaScript numbers standing for epoch milliseconds are modelled as `Nat`;
coordinates pass through the pipeline untouched, so they are modelled as
`Int × Int` pairs.  `Map` objects are modelled as insertion-ordered
association lists.  External calls (geocoding providers, the X search API,
the LLM, the database) are modelled as oracle values supplied by an
environment record; everything the handlers themselves compute is embedded
from the source.
-/

namespace XMap

/-! ## Association lists standing for JavaScript `Map` objects

`Map.get` returns the first (and only) binding; `Map.set` updates an
existing binding in place, else appends, preserving insertion order. -/

def alistGet {α : Type} (m : List (String × α)) (k : String) : Option α :=
  match m with
  | [] => none
  | (k', v) :: rest => if k' = k then some v else alistGet rest k

def alistSet {α : Type} (m : List (String × α)) (k : String) (v : α) :
    List (String × α) :=
  match m with
  | [] => [(k, v)]
  | (k', v') :: rest =>
      if k' = k then (k', v) :: rest else (k', v') :: alistSet rest k v

def alistDelete {α : Type} (m : List (String × α)) (k : String) :
    List (String × α) :=
  match m with
  | [] => []
  | (k', v') :: rest =>
      if k' = k then rest else (k', v') :: alistDelete rest k

/-! ## String primitives

Kernel-evaluable models of the JavaScript string methods the handlers use
(`trim`, `toLowerCase`, `split(sep)[0]`).  They agree with JS on the ASCII
inputs that occur in this development. -/

def trimChars (l : List Char) : List Char :=
  ((l.dropWhile Char.isWhitespace).reverse.dropWhile Char.isWhitespace).reverse

/-- JS `s.trim()`. -/
def jsTrim (s : String) : String := (trimChars s.toList).asString

/-- JS `s.toLowerCase()`. -/
def jsToLower (s : String) : String := (s.toList.map Char.toLower).asString

/-- JS `s.split(sep)[0]`: everything before the first separator. -/
def jsSplitFirst (sep : Char) (s : String) : String :=
  (s.toList.takeWhile (fun c => c ≠ sep)).asString

/-! ## Geocode route (`src/app/api/geocode/route.ts`) -/

/-- One entry of the in-memory `geocodeCache`. -/
structure GeoCacheEntry where
  lat : Int
  lon : Int
  display_name : String
  timestamp : Nat
deriving DecidableEq, Repr

/-- One entry of the `rateLimitMap`. -/
structure RateEntry where
  count : Nat
  resetAt : Nat
deriving DecidableEq, Repr

def RATE_LIMIT_WINDOW : Nat := 60 * 1000

def MAX_REQUESTS_PER_WINDOW : Nat := 50

def CACHE_TTL : Nat := 24 * 60 * 60 * 1000

/-- Result of `checkRateLimit`: either allowed (with the updated map) or
denied with the computed retry-after value in seconds. -/
inductive RateResult where
  | allowed (newMap : List (String × RateEntry))
  | denied (retryAfter : Nat)
deriving DecidableEq, Repr

/-- `checkRateLimit(ip)`.  The JS `ip || "default"` makes the empty string
fall back to `"default"`; `Math.ceil((resetAt - now) / 1000)` is the
rounded-up division (on the denied branch `now ≤ resetAt` holds, so `Nat`
subtraction is exact). -/
def checkRateLimit (now : Nat) (ip : String)
    (m : List (String × RateEntry)) : RateResult :=
  let key := if ip = "" then "default" else ip
  match alistGet m key with
  | none => .allowed (alistSet m key ⟨1, now + RATE_LIMIT_WINDOW⟩)
  | some limit =>
      if now > limit.resetAt then
        .allowed (alistSet m key ⟨1, now + RATE_LIMIT_WINDOW⟩)
      else if limit.count ≥ MAX_REQUESTS_PER_WINDOW then
        .denied ((limit.resetAt - now + 999) / 1000)
      else
        .allowed (alistSet m key ⟨limit.count + 1, limit.resetAt⟩)

/-- `request.headers.get("x-forwarded-for")?.split(",")[0] ||
request.headers.get("x-real-ip") || "unknown"`.  An empty first component is
falsy in JS, so it falls through to the next alternative. -/
def clientIpOf (xForwardedFor xRealIp : Option String) : String :=
  let fallback := match xRealIp with
    | some r => if r = "" then "unknown" else r
    | none => "unknown"
  match xForwardedFor with
  | some s =>
      let first := jsSplitFirst ',' s
      if first = "" then fallback else first
  | none => fallback

/-- Outcome of `geocodeWithRetry` (the upstream providers with their
retry/fallback logic), treated as an oracle: either coordinates `[lon, lat]`
with a display name, or an error message. -/
inductive ResolveOutcome where
  | success (coordinates : Int × Int) (display_name : String)
  | failure (error : String)
deriving DecidableEq, Repr

/-- Mutable state of the geocode route module: the geocode cache and the
rate-limit map, both insertion-ordered. -/
structure GeoState where
  cache : List (String × GeoCacheEntry)
  rate : List (String × RateEntry)
deriving DecidableEq, Repr

/-- The observable response of the geocode route `GET`. -/
inductive GeoResponse where
  /-- 400 with body `{error: "location parameter is required"}`. -/
  | badRequest
  /-- 200 with `cached: true`; coordinates are `[lon, lat]` from the cache. -/
  | okCached (location : String) (coordinates : Int × Int)
      (display_name : String)
  /-- 429 with a `Retry-After` header. -/
  | rateLimited (retryAfter : Nat)
  /-- 200 with `cached: false` and the freshly resolved coordinates. -/
  | okFresh (location : String) (coordinates : Int × Int)
      (display_name : String)
  /-- 404 when the error mentions "not found", else 500. -/
  | geoFailure (error : String)
deriving DecidableEq, Repr

def GeoResponse.status : GeoResponse → Nat
  | .badRequest => 400
  | .okCached _ _ _ => 200
  | .rateLimited _ => 429
  | .okFresh _ _ _ => 200
  | .geoFailure e => if (e.splitOn "not found").length > 1 then 404 else 500

/-- The `Retry-After` header attached to the response, when present. -/
def GeoResponse.retryAfterHeader : GeoResponse → Option String
  | .rateLimited r => some (toString r)
  | _ => none

/-- The `cached` flag of a 200 body. -/
def GeoResponse.cachedFlag : GeoResponse → Option Bool
  | .okCached _ _ _ => some true
  | .okFresh _ _ _ => some false
  | _ => none

/-- A geocode request: the `location` query parameter and the two headers
the handler looks at. -/
structure GeoRequest where
  location : Option String
  xForwardedFor : Option String := none
  xRealIp : Option String := none
deriving DecidableEq, Repr

/-- Result of the handler: response, new module state, and the number of
calls made to `geocodeWithRetry` (the upstream resolver). -/
structure Georesult where
  response : GeoResponse
  state : GeoState
  upstreamCalls : Nat
deriving DecidableEq, Repr

/-- The cache-miss tail of the handler (from the rate-limit check on).
`st` already has any expired entry removed. -/
def geocodeMiss (now : Nat) (loc : String) (req : GeoRequest)
    (resolver : String → ResolveOutcome) (st : GeoState) : Georesult :=
  let locationKey := jsToLower (jsTrim loc)
  let clientIp := clientIpOf req.xForwardedFor req.xRealIp
  match checkRateLimit now clientIp st.rate with
  | .denied retryAfter => ⟨.rateLimited retryAfter, st, 0⟩
  | .allowed rate' =>
      match resolver loc with
      | .failure e => ⟨.geoFailure e, { st with rate := rate' }, 1⟩
      | .success coords dn =>
          let cache' := alistSet st.cache locationKey
            ⟨coords.2, coords.1, dn, now⟩
          -- `if (geocodeCache.size > 1000)` delete the first (oldest) key
          let cache'' := if cache'.length > 1000 then cache'.tail else cache'
          ⟨.okFresh loc coords dn, ⟨cache'', rate'⟩, 1⟩

/-- The geocode route `GET` handler (`src/app/api/geocode/route.ts`,
lines 174-277).  `resolver` is the `geocodeWithRetry` oracle; the result
counts how many times it was invoked. -/
def geocodeGET (now : Nat) (req : GeoRequest)
    (resolver : String → ResolveOutcome) (st : GeoState) : Georesult :=
  match req.location with
  | none => ⟨.badRequest, st, 0⟩
  | some loc =>
      if jsTrim loc = "" then ⟨.badRequest, st, 0⟩
      else
        let locationKey := jsToLower (jsTrim loc)
        match alistGet st.cache locationKey with
        | some cached =>
            if now - cached.timestamp < CACHE_TTL then
              ⟨.okCached loc (cached.lon, cached.lat) cached.display_name,
                st, 0⟩
            else
              geocodeMiss now loc req resolver
                { st with cache := alistDelete st.cache locationKey }
        | none => geocodeMiss now loc req resolver st

/-- Sequential processing of a list of timestamped requests against the
module state, collecting each request's result in order. -/
def processGeoRequests (resolver : String → ResolveOutcome) :
    List (Nat × GeoRequest) → GeoState → List Georesult × GeoState
  | [], st => ([], st)
  | (now, req) :: rest, st =>
      let r := geocodeGET now req resolver st
      let (rs, st') := processGeoRequests resolver rest r.state
      (r :: rs, st')

/-! ### Scenario: 51 requests from one client IP within one window

All requests name the same uncached location and the resolver fails, so
nothing is ever cached and every request reaches the rate limiter. -/

def scenarioIp : String := "203.0.113.7"

def geoDenyResolver : String → ResolveOutcome := fun _ => .failure "boom"

def geoScenarioReq : GeoRequest := ⟨some "Paris", some scenarioIp, none⟩

/-- The first 50 requests, issued at times 0,1,…,49 ms. -/
def geoFirst50 : List (Nat × GeoRequest) :=
  (List.range 50).map (fun k => (k, geoScenarioReq))

/-- Module state after the first 50 requests. -/
def geoStateAfter50 : GeoState :=
  (processGeoRequests geoDenyResolver geoFirst50 ⟨[], []⟩).2

/-! ### Claim theorems for the geocode route -/

/-- C7: a geocode request whose `location` parameter is absent, empty, or
whitespace-only is answered with HTTP 400 (body
`{error: "location parameter is required"}`), with the module state
untouched (no cache write, no rate-limit accounting) and no upstream
resolver call. -/
theorem geocode_blank_location_rejected (now : Nat) (req : GeoRequest)
    (resolver : String → ResolveOutcome) (st : GeoState)
    (h : req.location = none ∨
      ∃ loc, req.location = some loc ∧ jsTrim loc = "") :
    geocodeGET now req resolver st = ⟨.badRequest, st, 0⟩ ∧
      GeoResponse.status .badRequest = 400 := by
  rcases h with h | ⟨loc, hl, ht⟩
  · exact ⟨by simp [geocodeGET, h], rfl⟩
  · exact ⟨by simp [geocodeGET, hl, ht], rfl⟩

/-- Witness for C7 at `location = "   "`. -/
theorem geocode_blank_location_rejected_witness :
    geocodeGET 0 ⟨some "   ", none, none⟩ geoDenyResolver ⟨[], []⟩ =
        ⟨.badRequest, ⟨[], []⟩, 0⟩ ∧
      GeoResponse.status .badRequest = 400 :=
  geocode_blank_location_rejected 0 ⟨some "   ", none, none⟩ geoDenyResolver
    ⟨[], []⟩ (Or.inr ⟨"   ", rfl, by decide⟩)

/-- C10: a geocode request whose trimmed, lower-cased location key has a
cache entry younger than 24 hours is answered 200 with `cached: true` and
the stored coordinates `[lon, lat]`; the module state (in particular the
rate-limit map) is unchanged and no upstream call is made, so the response
status is 200, never 429. -/
theorem geocode_fresh_cache_hit (now : Nat) (req : GeoRequest)
    (resolver : String → ResolveOutcome) (st : GeoState) (loc : String)
    (e : GeoCacheEntry)
    (hl : req.location = some loc) (ht : ¬ jsTrim loc = "")
    (hc : alistGet st.cache (jsToLower (jsTrim loc)) = some e)
    (hf : now - e.timestamp < CACHE_TTL) :
    geocodeGET now req resolver st =
        ⟨.okCached loc (e.lon, e.lat) e.display_name, st, 0⟩ ∧
      GeoResponse.status (.okCached loc (e.lon, e.lat) e.display_name)
        = 200 ∧
      GeoResponse.cachedFlag (.okCached loc (e.lon, e.lat) e.display_name)
        = some true := by
  refine ⟨?_, rfl, rfl⟩
  simp [geocodeGET, hl, ht, hc, hf]

/-- Witness for C10: a 100 ms old cache entry for `"paris"` answers a
request for `"  Paris "` from the cache. -/
theorem geocode_fresh_cache_hit_witness :
    geocodeGET 200 ⟨some "  Paris ", some scenarioIp, none⟩ geoDenyResolver
        ⟨[("paris", ⟨2, 3, "Paris, France", 100⟩)], [(scenarioIp, ⟨50, 60000⟩)]⟩ =
        ⟨.okCached "  Paris " (3, 2) "Paris, France",
          ⟨[("paris", ⟨2, 3, "Paris, France", 100⟩)],
            [(scenarioIp, ⟨50, 60000⟩)]⟩, 0⟩ ∧
      GeoResponse.status (.okCached "  Paris " (3, 2) "Paris, France") = 200 ∧
      GeoResponse.cachedFlag (.okCached "  Paris " (3, 2) "Paris, France")
        = some true :=
  geocode_fresh_cache_hit 200 ⟨some "  Paris ", some scenarioIp, none⟩
    geoDenyResolver
    ⟨[("paris", ⟨2, 3, "Paris, France", 100⟩)], [(scenarioIp, ⟨50, 60000⟩)]⟩
    "  Paris " ⟨2, 3, "Paris, France", 100⟩ rfl (by decide) (by decide)
    (by decide)

/-- C6: a geocode request with a valid, uncached location from a client IP
whose rate-limit bucket already counts `MAX_REQUESTS_PER_WINDOW` (50)
requests in the current window is answered HTTP 429 with a `Retry-After`
header, the state is unchanged, and the upstream resolver is not called. -/
theorem geocode_over_limit_rejected (now : Nat) (req : GeoRequest)
    (resolver : String → ResolveOutcome) (st : GeoState) (loc : String)
    (lim : RateEntry)
    (hl : req.location = some loc) (ht : ¬ jsTrim loc = "")
    (hc : alistGet st.cache (jsToLower (jsTrim loc)) = none)
    (hr : alistGet st.rate
        (if clientIpOf req.xForwardedFor req.xRealIp = "" then "default"
         else clientIpOf req.xForwardedFor req.xRealIp) = some lim)
    (hw : ¬ now > lim.resetAt)
    (hcount : lim.count ≥ MAX_REQUESTS_PER_WINDOW) :
    geocodeGET now req resolver st =
        ⟨.rateLimited ((lim.resetAt - now + 999) / 1000), st, 0⟩ ∧
      GeoResponse.status (.rateLimited ((lim.resetAt - now + 999) / 1000))
        = 429 ∧
      GeoResponse.retryAfterHeader
          (.rateLimited ((lim.resetAt - now + 999) / 1000))
        = some (toString ((lim.resetAt - now + 999) / 1000)) := by
  refine ⟨?_, rfl, rfl⟩
  simp [geocodeGET, hl, ht, hc, geocodeMiss, checkRateLimit, hr, hw, hcount]

set_option maxRecDepth 100000 in
/-- Witness for C6, realising the spec scenario literally: starting from an
empty module state, 50 requests from `scenarioIp` within one minute are
processed (each reaching the upstream resolver), and the 51st request — at
50 ms, still inside the window — is rejected with 429, `Retry-After: 60`,
no state change and no upstream call. -/
theorem geocode_over_limit_rejected_witness :
    geocodeGET 50 geoScenarioReq geoDenyResolver geoStateAfter50 =
        ⟨.rateLimited 60, geoStateAfter50, 0⟩ ∧
      GeoResponse.status (.rateLimited 60) = 429 ∧
      GeoResponse.retryAfterHeader (.rateLimited 60) = some "60" :=
  geocode_over_limit_rejected 50 geoScenarioReq geoDenyResolver
    geoStateAfter50 "Paris" ⟨50, 60000⟩ rfl (by decide) (by decide)
    (by decide) (by decide) (by decide)

/-! ## Breaking-news route (`src/app/api/grok/breaking-news/route.ts`)

The streaming handler is embedded as a pure interpreter over an environment
that supplies every external observation (LLM responses, geocoding results,
X API results, database success/failure).  The handler's output is the
ordered trace of observable events: frames enqueued to the client and
database effects. -/

/-- Scope tier returned by `normalizeQuery`. -/
inductive Scope where
  | global
  | region
  | local
deriving DecidableEq, Repr

def Scope.str : Scope → String
  | .global => "global"
  | .region => "region"
  | .local => "local"

/-- `const targetCount = scope === "global" ? 40 : (scope === "region" ? 20 : 5)`. -/
def targetCountOf : Scope → Nat
  | .global => 40
  | .region => 20
  | .local => 5

/-- Lines 248-250: `neededCount = Math.max(0, targetCount - cachedCount)`
(the `max 0` is `Nat` truncated subtraction) and
`fetchCount = Math.min(Math.max(neededCount, 5), 20)`. -/
def fetchCountOf (scope : Scope) (cachedCount : Nat) : Nat :=
  min (max (targetCountOf scope - cachedCount) 5) 20

/-- Line 281, the `while` condition of the discovery loop:
`fetchedCount < fetchCount && attempts < 10 && (Date.now() - processStartTime) < 90000`. -/
def loopCond (fetchedCount fetchCount attempts elapsed : Nat) : Bool :=
  decide (fetchedCount < fetchCount) && decide (attempts < 10) &&
    decide (elapsed < 90000)

/-- The loop-continuation condition as the specification words it (§4.5):
"continues while `fetchedCount < targetCount AND attempts < 10 AND
elapsed < 90s`", with `targetCount` given directly by the scope tier.
Stated for comparison with `loopCond`, which is what the code runs. -/
def specLoopCond (fetchedCount : Nat) (scope : Scope)
    (attempts elapsed : Nat) : Bool :=
  decide (fetchedCount < targetCountOf scope) && decide (attempts < 10) &&
    decide (elapsed < 90000)

/-- A social post as it flows through the pipeline (the `top_tweets`
payload).  Engagement counts are numbers from the X API; the database
stores them stringified, which is elided here.  Replayed cache items carry
no `verified` field; that is modelled as `false`. -/
structure Post where
  id : String
  author : String
  name : String
  text : String
  url : String
  timestamp : Nat
  likes : Nat
  replies : Nat
  reposts : Nat
  profile_pic : Option String
  verified : Bool
deriving DecidableEq, Repr

/-- The `news` frame payload (and the shape persisted by
`prisma.newsItem.create`). -/
structure NewsItem where
  id : String
  headline : String
  location : String
  summary : String
  category : String
  coordinates : Int × Int
  timestamp : Nat
  top_tweets : List Post
deriving DecidableEq, Repr

/-- A server-sent event frame (`data: {type: ...}`). -/
inductive Frame where
  | connected
  | status (message : String)
  | news (item : NewsItem)
  | error (message : String)
  | complete
deriving DecidableEq, Repr

/-- One observable event of a discovery run: a frame enqueued to the
client, or a database effect. -/
inductive Ev where
  /-- `safeEnqueue` of a frame. -/
  | frame (f : Frame)
  /-- `prisma.newsItem.create` succeeded for this item. -/
  | dbCreate (item : NewsItem)
  /-- `prisma.newsItem.create` threw (`createError`). -/
  | dbCreateFailed (headline : String)
  /-- Conflict recovery: `findFirst({headline, location})` found a
  pre-existing row with this id. -/
  | dbRecoverFound (headline : String) (id : String)
  /-- Conflict recovery found nothing (or itself threw). -/
  | dbRecoverMissed (headline : String)
  /-- `prisma.searchQuery.update` connecting the listed item ids. -/
  | dbLink (ids : List String)
  /-- `prisma.searchQuery.create` with the listed item ids. -/
  | dbQueryCreate (ids : List String)
deriving DecidableEq, Repr

/-! ### The cache lookup (lines 196-212) -/

def SIX_HOURS : Nat := 6 * 60 * 60 * 1000

def SEVEN_DAYS : Nat := 7 * 24 * 60 * 60 * 1000

/-- A `NewsItem` row as stored in the database (coordinates are stored as
JSON text and parsed on replay; the pair is kept parsed here). -/
structure StoredItem where
  id : String
  headline : String
  location : String
  summary : String
  category : String
  coordinates : Int × Int
  timestamp : Nat
  tweets : List Post
deriving DecidableEq, Repr

/-- A `SearchQuery` row: `timestamp` is the last-refresh time. -/
structure SearchQueryRec where
  id : String
  originalQuery : String
  normalizedKey : String
  timestamp : Nat
  items : List StoredItem
deriving DecidableEq, Repr

/-- `findFirst` with `orderBy: {timestamp: "desc"}`: the first row carrying
the maximal timestamp among the candidates. -/
def latestByRefresh : Option SearchQueryRec → List SearchQueryRec →
    Option SearchQueryRec
  | acc, [] => acc
  | acc, r :: rest =>
      latestByRefresh
        (match acc with
         | none => some r
         | some b => if r.timestamp > b.timestamp then some r else some b)
        rest

/-- The cache lookup of lines 199-212:
`findFirst({where: {normalizedKey, timestamp: {gt: sixHoursAgo}}, include:
{items: {where: {timestamp: {gt: sevenDaysAgo}}}}, orderBy: {timestamp:
"desc"}})`. -/
def cacheLookup (db : List SearchQueryRec) (key : String) (now : Nat) :
    Option SearchQueryRec :=
  match latestByRefresh none (db.filter (fun r =>
      r.normalizedKey == key && decide (now - SIX_HOURS < r.timestamp))) with
  | none => none
  | some r =>
      some { r with
        items := r.items.filter
          (fun it => decide (now - SEVEN_DAYS < it.timestamp)) }

/-! ### The social evidence fetcher (`fetchRealTweets`, lines 48-139) -/

/-- JS `s.split(sep)`, keeping empty components. -/
def splitChars (sep : Char) : List Char → List (List Char)
  | [] => [[]]
  | c :: rest =>
      let r := splitChars sep rest
      if c = sep then [] :: r
      else
        match r with
        | [] => [[c]]
        | h :: t => (c :: h) :: t

def jsSplit (sep : Char) (s : String) : List String :=
  (splitChars sep s.toList).map List.asString

/-- JS `arr.join(" ")`. -/
def joinSpace : List String → String
  | [] => ""
  | [x] => x
  | x :: rest => x ++ " " ++ joinSpace rest

/-- Collapse every whitespace run to a single space
(`replace(/\s+/g, " ")`); `prevWs` records whether the previous character
was part of a run. -/
def collapseWsAux (prevWs : Bool) : List Char → List Char
  | [] => []
  | c :: rest =>
      if c.isWhitespace then
        if prevWs then collapseWsAux true rest
        else ' ' :: collapseWsAux true rest
      else c :: collapseWsAux false rest

/-- Line 65: `searchQuery.trim().replace(/\s+/g, " ")`. -/
def cleanQueryOf (s : String) : String :=
  (collapseWsAux false (jsTrim s).toList).asString

/-- JS `arr.filter((q, i, arr) => arr.indexOf(q) === i)`: keep the first
occurrence of each element. -/
def dedupFirstAux : List String → List String → List String
  | [], _ => []
  | x :: rest, seen =>
      if x ∈ seen then dedupFirstAux rest seen
      else x :: dedupFirstAux rest (seen ++ [x])

def dedupFirst (l : List String) : List String := dedupFirstAux l []

/-- Lines 56-60: the three query variations (original; headline + query
when the headline is truthy; first three space-separated words), first
occurrences only. -/
def queryVariations (query headline : String) : List String :=
  dedupFirst
    [query,
     if headline = "" then query else headline ++ " " ++ query,
     joinSpace ((jsSplit ' ' query).take 3)]

/-- A user object from `data.includes.users`. -/
structure RawUser where
  id : String
  username : Option String
  name : Option String
  profile_image_url : Option String
  verified : Bool
deriving DecidableEq, Repr

/-- A tweet object from `data.data`; `public_metrics` defaults are already
folded in (`?.like_count || 0`). -/
structure RawPost where
  id : String
  text : String
  author_id : String
  lang : String
  created_at : Nat
  like_count : Nat
  reply_count : Nat
  retweet_count : Nat
deriving DecidableEq, Repr

/-- The parsed body of a successful search response. -/
structure XApiData where
  posts : List RawPost
  users : List (String × RawUser)
deriving DecidableEq, Repr

/-- Outcome of one `fetch` of the recent-search endpoint for one query
variation: the fetch (or body parse) threw, or `!res.ok` with a status, or
a parsed body. -/
inductive VarOutcome where
  | throwErr
  | httpErr (status : Nat)
  | ok (data : XApiData)
deriving DecidableEq, Repr

/-- Lines 109-124: build one mapped tweet, resolving the author through the
users map with `{}` as fallback (`user.username` interpolates as the string
"undefined" in the URL when absent, exactly as JS template literals do). -/
def buildPost (users : List (String × RawUser)) (t : RawPost) : Post :=
  let user := alistGet users t.author_id
  let username := (user.bind RawUser.username)
  ⟨t.id,
   "@" ++ username.getD "unknown",
   (user.bind RawUser.name).getD "Unknown",
   t.text,
   "https://x.com/" ++ username.getD "undefined" ++ "/status/" ++ t.id,
   t.created_at,
   t.like_count,
   t.reply_count,
   t.retweet_count,
   user.bind RawUser.profile_image_url,
   (user.map RawUser.verified).getD false⟩

/-- Lines 107-125: keep English tweets, map them, and drop very short
texts (`t.text && t.text.length > 10`). -/
def buildPosts (data : XApiData) : List Post :=
  ((data.posts.filter (fun t => t.lang == "en")).map
      (buildPost data.users)).filter
    (fun t => decide (t.text.length > 10))

/-- The `for (const searchQuery of queryVariations)` loop (lines 62-135):
each variation is fetched with its cleaned query; a throw or a non-429
error tries the next variation, a 429 aborts the remaining variations, an
empty or all-filtered result set tries the next variation, and the first
non-empty mapped result is returned.  Falls through to `[]`. -/
def fetchVariationLoop (xapi : String → VarOutcome) : List String → List Post
  | [] => []
  | v :: rest =>
      match xapi (cleanQueryOf v) with
      | .throwErr => fetchVariationLoop xapi rest
      | .httpErr status =>
          if status = 429 then [] else fetchVariationLoop xapi rest
      | .ok data =>
          if data.posts.length = 0 then fetchVariationLoop xapi rest
          else
            let tweets := buildPosts data
            if tweets.length > 0 then tweets
            else fetchVariationLoop xapi rest

/-- `fetchRealTweets(query, headline)`.  `bearerToken` summarises
`process.env.X_BEARER_TOKEN || process.env.BEARER_TOKEN` (`none` models
both unset or empty); `xapi` is the search endpoint oracle, keyed by the
cleaned query string. -/
def fetchRealTweets (bearerToken : Option String)
    (xapi : String → VarOutcome) (query headline : String) : List Post :=
  match bearerToken with
  | none => []
  | some _ => fetchVariationLoop xapi (queryVariations query headline)

/-- A search outcome that yields no valid post: a throw, an HTTP error, an
empty result set, or a result set whose every tweet is filtered out. -/
def VarOutcome.yieldsNoPost : VarOutcome → Bool
  | .throwErr => true
  | .httpErr _ => true
  | .ok data => data.posts.length = 0 || (buildPosts data).length = 0

/-! ### Candidate processing (lines 367-463) -/

/-- The value of `new Date(args.timestamp)` for a truthy `args.timestamp`:
either an invalid date (`NaN`, for which `itemDate < sevenDaysAgo` is
false) or a parsed epoch time. -/
inductive TsVal where
  | invalid
  | valid (t : Nat)
deriving DecidableEq, Repr

/-- One parsed `report_news` argument set.  Absent or empty (falsy) string
fields are modelled as `""`; `timestamp = none` models a falsy
`args.timestamp`. -/
structure Args where
  headline : String
  location : String
  summary : String
  category : String
  timestamp : Option TsVal
  search_query : String
deriving DecidableEq, Repr

/-- The external observations made while processing one candidate. -/
structure CandEnv where
  /-- `crypto.randomUUID()`. -/
  newId : String
  /-- `Date.now()` when the news item is built (line 413). -/
  procTime : Nat
  /-- `geocodeLocation(args.location)` (never throws; `none` on failure). -/
  geocode : Option (Int × Int)
  /-- `fetchRealTweets(args.search_query, args.headline)`. -/
  tweets : List Post
  /-- Whether `prisma.newsItem.create` succeeds. -/
  saveOk : Bool
  /-- On create failure, the recovery `findFirst({headline, location})`
  result; `none` also covers a throwing `findFirst`. -/
  recoverId : Option String
deriving DecidableEq, Repr

/-- One entry of the accumulated `toolCallsMap`: `args = none` models
`JSON.parse(jsonArgs)` throwing (the per-item `catch` swallows it). -/
structure ToolCall where
  args : Option Args
  env : CandEnv
deriving DecidableEq, Repr

/-- What processing one tool call contributes: the events appended to the
trace, the headlines appended to `existingHeadlines`, the increment of
`fetchedCount`, and the ids appended to `createdItemsIds`. -/
structure CallResult where
  delta : List Ev
  newHeadlines : List String
  fetchedInc : Nat
  createdIds : List String
deriving DecidableEq, Repr

/-- Lines 367-462, one iteration of the `for (const [idx, jsonArgs] of
toolCallsMap.entries())` loop, given the current `existingHeadlines`. -/
def processCall (sevenDaysAgo : Nat) (existing : List String)
    (c : ToolCall) : CallResult :=
  match c.args with
  | none => ⟨[], [], 0, []⟩
  | some args =>
      -- `if (!args.headline || !args.location) continue`
      if args.headline = "" ∨ args.location = "" then ⟨[], [], 0, []⟩
      -- `if (existingHeadlines.includes(args.headline)) continue`
      else if args.headline ∈ existing then ⟨[], [], 0, []⟩
      -- `if (args.timestamp) { if (itemDate < sevenDaysAgo) continue }`
      else if (match args.timestamp with
               | some (.valid t) => decide (t < sevenDaysAgo)
               | _ => false) then ⟨[], [], 0, []⟩
      else
        let found := [Ev.frame (.status ("Found: " ++ args.headline))]
        match c.env.geocode with
        | none => ⟨found, [], 0, []⟩
        | some coords =>
            let (tweetFrames, realTweets) :=
              if args.search_query = "" then ([], [])
              else
                ([Ev.frame (.status ("Fetching real tweets from X API: \"" ++
                    args.search_query ++ "\"..."))] ++
                 (if c.env.tweets.length > 0 then
                    [Ev.frame (.status ("Found " ++
                      toString c.env.tweets.length ++
                      " real tweets from X API"))]
                  else
                    [Ev.frame (.status ("No tweets found on X API for: " ++
                      args.headline))]),
                 c.env.tweets)
            let item : NewsItem :=
              ⟨c.env.newId, args.headline, args.location, args.summary,
               (if args.category = "" then "General" else args.category),
               coords, c.env.procTime, realTweets⟩
            let emitted := found ++ tweetFrames ++ [Ev.frame (.news item)]
            if c.env.saveOk then
              ⟨emitted ++ [Ev.dbCreate item], [args.headline], 1, [item.id]⟩
            else
              match c.env.recoverId with
              | some exId =>
                  ⟨emitted ++ [Ev.dbCreateFailed args.headline,
                      Ev.dbRecoverFound args.headline exId],
                   [], 1, [exId]⟩
              | none =>
                  ⟨emitted ++ [Ev.dbCreateFailed args.headline,
                      Ev.dbRecoverMissed args.headline],
                   [], 0, []⟩

/-- Run-level mutable state of the stream handler. -/
structure RunState where
  existingHeadlines : List String
  fetchedCount : Nat
  attempts : Nat
  trace : List Ev
deriving DecidableEq, Repr

/-- The candidate loop of one round, threading `existingHeadlines`,
`fetchedCount` and `createdItemsIds` through the calls in map order. -/
def callsFold (sevenDaysAgo : Nat) :
    List ToolCall → RunState × List String → RunState × List String
  | [], sc => sc
  | c :: rest, (s, created) =>
      let r := processCall sevenDaysAgo s.existingHeadlines c
      callsFold sevenDaysAgo rest
        ({ s with
            trace := s.trace ++ r.delta,
            existingHeadlines := s.existingHeadlines ++ r.newHeadlines,
            fetchedCount := s.fetchedCount + r.fetchedInc },
         created ++ r.createdIds)

/-- The environment of one loop iteration: the Grok chat-completions call
and the tool calls its stream accumulates. -/
structure Round where
  /-- `response.ok` (line 330; `false` throws into the attempt catch). -/
  grokOk : Bool
  /-- `response.body?.getReader()` present (line 334; absent breaks the
  whole loop). -/
  hasReader : Bool
  /-- The accumulated tool calls in map order. -/
  calls : List ToolCall
  /-- The `findFirst({where: {normalizedKey}})` oracle of line 478, used
  when no cached query record was found at the start of the run. -/
  existingQ : Option String
deriving Repr

/-- Lines 283-285: `attempts++` and, from the second attempt on, the
"Scanning for more..." narration. -/
def narrate (fetchCount : Nat) (s : RunState) : RunState :=
  let s := { s with attempts := s.attempts + 1 }
  if s.attempts > 1 then
    { s with trace := s.trace ++
      [Ev.frame (.status ("Scanning for more... (" ++
        toString s.fetchedCount ++ "/" ++ toString fetchCount ++
        " found)"))] }
  else s

/-- Lines 465-495: after a batch, connect the created/recovered item ids
to the `SearchQuery` record — updating the cached record when one was
found at the start of the run, else updating or creating the record for
the key. -/
def linkStep (hasCachedQuery : Bool) (existingQ : Option String)
    (created : List String) (s : RunState) : RunState :=
  if hasCachedQuery then
    if created.length > 0 then
      { s with trace := s.trace ++ [Ev.dbLink created] }
    else s
  else
    if created.length > 0 then
      match existingQ with
      | some _ => { s with trace := s.trace ++ [Ev.dbLink created] }
      | none => { s with trace := s.trace ++ [Ev.dbQueryCreate created] }
    else s

/-- Lines 281-506, one iteration of the `while` loop (after the condition
held): bump `attempts`, narrate retries, consume the Grok stream, process
every candidate, then link the batch to the `SearchQuery` record.  The
returned flag reports the `if (!reader) break`. -/
def runRound (hasCachedQuery : Bool) (sevenDaysAgo fetchCount : Nat)
    (r : Round) (s : RunState) : RunState × Bool :=
  let s := narrate fetchCount s
  if ¬r.grokOk then (s, false)
  else if ¬r.hasReader then (s, true)
  else
    let sc := callsFold sevenDaysAgo r.calls (s, [])
    (linkStep hasCachedQuery r.existingQ sc.2 sc.1, false)

/-- The discovery `while` loop.  `fuel` only bounds the recursion: the run
starts it at 10 with `attempts = 0` and every iteration increments
`attempts`, so the `attempts < 10` conjunct of `loopCond` always fails
before the fuel does, and the recursion computes exactly the source loop.
`rounds` and `elapsed` are indexed by the value of `attempts` at the
condition check. -/
def discoveryLoop (hasCachedQuery : Bool) (sevenDaysAgo fetchCount : Nat)
    (rounds : Nat → Round) (elapsed : Nat → Nat) :
    Nat → RunState → RunState
  | 0, s => s
  | fuel + 1, s =>
      if loopCond s.fetchedCount fetchCount s.attempts
          (elapsed s.attempts) then
        let sb := runRound hasCachedQuery sevenDaysAgo fetchCount
          (rounds s.attempts) s
        if sb.2 then sb.1
        else discoveryLoop hasCachedQuery sevenDaysAgo fetchCount rounds
          elapsed fuel sb.1
      else s

/-! ### The stream handler (`GET`, lines 169-519) -/

/-- Lines 226-237: a stored tweet replayed into a frame payload
(`name: t.name || t.author`; the replayed object carries no `verified`
field, modelled as `false`). -/
def replayPost (t : Post) : Post :=
  ⟨t.id, t.author, (if t.name = "" then t.author else t.name), t.text,
   t.url, t.timestamp, t.likes, t.replies, t.reposts, t.profile_pic, false⟩

/-- Lines 218-238: a cached item replayed into a `news` frame payload. -/
def replayItem (it : StoredItem) : NewsItem :=
  ⟨it.id, it.headline, it.location, it.summary, it.category,
   it.coordinates, it.timestamp, it.tweets.map replayPost⟩

/-- Everything external a discovery run observes. -/
structure DiscoveryEnv where
  /-- The `query` search parameter (defaulted to `""`). -/
  rawQuery : String
  /-- `normalizeQuery` result (it never throws: any failure falls back to
  the raw query and `global` scope). -/
  normalizedKey : String
  scope : Scope
  /-- `Date.now()` at the start of the run: the basis of the cache windows
  and of `processStartTime`. -/
  now0 : Nat
  /-- The `SearchQuery` table with its linked items. -/
  db : List SearchQueryRec
  /-- The cache `findFirst` throws, reaching the outer catch (this models
  any exception escaping the body of the outer `try`). -/
  dbThrows : Bool
  /-- `String(e)` for that exception. -/
  thrownMessage : String
  /-- The Grok round environments, indexed by the value of `attempts` at
  the condition check. -/
  rounds : Nat → Round
  /-- `Date.now() - processStartTime` at each condition check. -/
  elapsed : Nat → Nat

/-- The two frames every run starts with. -/
def streamHead : List Ev :=
  [Ev.frame .connected, Ev.frame (.status "Analyzing query scope...")]

/-- Lines 214-242: the cache replay.  When a cached record with surviving
items was found, one narration frame and one `news` frame per item are
emitted and the item headlines seed `existingHeadlines`. -/
def replayEvents (cached : Option SearchQueryRec) (key : String) :
    List Ev × List String :=
  match cached with
  | some q =>
      if q.items.length > 0 then
        ([Ev.frame (.status ("Found cached results for " ++ key))] ++
         q.items.map (fun it => Ev.frame (.news (replayItem it))),
         q.items.map StoredItem.headline)
      else ([], [])
  | none => ([], [])

/-- Line 252, the pre-loop narration frame. -/
def scanFrame (scope : Scope) (cachedCount : Nat) : Ev :=
  Ev.frame (.status ("Scanning " ++ scope.str ++
    " scope for updates (Quality target: " ++
    toString (targetCountOf scope) ++ ", Fetching: " ++
    toString (fetchCountOf scope cachedCount) ++ ")..."))

/-- The body of the outer `try`: cache replay, the discovery loop, then
the `complete` frame. -/
def discoveryBody (env : DiscoveryEnv) : List Ev :=
  let cached := cacheLookup env.db env.normalizedKey env.now0
  let re := replayEvents cached env.normalizedKey
  let fc := fetchCountOf env.scope re.2.length
  let s0 : RunState :=
    ⟨re.2, 0, 0, streamHead ++ re.1 ++ [scanFrame env.scope re.2.length]⟩
  (discoveryLoop cached.isSome (env.now0 - SEVEN_DAYS) fc env.rounds
      env.elapsed 10 s0).trace ++ [Ev.frame .complete]

/-- The full observable trace of one execution of the stream `start`
callback: `connected`, the outer `try` (cache replay, then the discovery
loop, then `complete`), or the outer `catch` emitting an `error` frame
instead. -/
def runStream (env : DiscoveryEnv) : List Ev :=
  if env.dbThrows then streamHead ++ [Ev.frame (.error env.thrownMessage)]
  else discoveryBody env

/-! ### Trace observers -/

/-- The headlines of the `news` frames of a trace, in emission order. -/
def newsHeadlines : List Ev → List String
  | [] => []
  | Ev.frame (Frame.news it) :: rest => it.headline :: newsHeadlines rest
  | _ :: rest => newsHeadlines rest

/-- The payloads of the `news` frames of a trace, in emission order. -/
def newsItemsOf : List Ev → List NewsItem
  | [] => []
  | Ev.frame (Frame.news it) :: rest => it :: newsItemsOf rest
  | _ :: rest => newsItemsOf rest

/-- Ids of `news` frames, accumulated onto `acc`. -/
def newsIdsAcc : List Ev → List String → List String
  | [], acc => acc
  | Ev.frame (Frame.news it) :: rest, acc => newsIdsAcc rest (it.id :: acc)
  | _ :: rest, acc => newsIdsAcc rest acc

/-- Scans a trace checking that every successful `dbCreate` concerns an
item whose `news` frame was emitted earlier; `em` accumulates the ids of
the `news` frames seen so far. -/
def createsAfterEmit : List Ev → List String → Bool
  | [], _ => true
  | Ev.frame (Frame.news it) :: rest, em => createsAfterEmit rest (it.id :: em)
  | Ev.dbCreate it :: rest, em =>
      decide (it.id ∈ em) && createsAfterEmit rest em
  | _ :: rest, em => createsAfterEmit rest em

/-- Scans a trace checking that every `news` frame concerns an item that is
already durably persisted: present in `per` (seeded with the ids persisted
before the run), created by an earlier successful `dbCreate`, or recovered
by an earlier successful conflict lookup. -/
def newsPersistedBefore : List Ev → List String → Bool
  | [], _ => true
  | Ev.frame (Frame.news it) :: rest, per =>
      decide (it.id ∈ per) && newsPersistedBefore rest per
  | Ev.dbCreate it :: rest, per => newsPersistedBefore rest (it.id :: per)
  | Ev.dbRecoverFound _ i :: rest, per => newsPersistedBefore rest (i :: per)
  | _ :: rest, per => newsPersistedBefore rest per

/-- Ids of every item row reachable from the `SearchQuery` table: the items
persisted before the run starts. -/
def dbItemIds (db : List SearchQueryRec) : List String :=
  (db.map (fun r => r.items.map StoredItem.id)).flatten

/-! ### Concrete run environments used as counterexamples and witnesses -/

/-- A round whose Grok stream yields no tool calls. -/
def emptyRound : Round := ⟨true, true, [], none⟩

/-- A candidate with fresh defaults: no declared timestamp, no search
query, geocoding succeeds, the save succeeds. -/
def simpleCall (h id : String) : ToolCall :=
  ⟨some ⟨h, "Paris", "s", "News", none, ""⟩,
   ⟨id, 0, some (1, 2), [], true, none⟩⟩

/-- A run with a single candidate whose persistence fails and whose
conflict recovery finds nothing: the `news` frame is emitted anyway. -/
def envSaveFails : DiscoveryEnv :=
  { rawQuery := "paris"
    normalizedKey := "France - Paris"
    scope := .local
    now0 := 1000000000
    db := []
    dbThrows := false
    thrownMessage := ""
    rounds := fun n =>
      if n = 0 then
        ⟨true, true,
         [⟨some ⟨"H1", "Paris", "s", "News", some (.valid 400000000), "q"⟩,
           ⟨"id1", 5000, some (2, 48), [], false, none⟩⟩], none⟩
      else emptyRound
    elapsed := fun n => if n = 0 then 0 else 100000 }

/-- A run with two same-headline candidates; the first save fails (with no
recovery), so the headline is never recorded and the second candidate is
emitted again. -/
def envDupHeadline : DiscoveryEnv :=
  { rawQuery := "paris"
    normalizedKey := "France - Paris"
    scope := .local
    now0 := 1000000000
    db := []
    dbThrows := false
    thrownMessage := ""
    rounds := fun n =>
      if n = 0 then
        ⟨true, true,
         [⟨some ⟨"H", "Paris", "s", "News", none, ""⟩,
           ⟨"idA", 10, some (1, 2), [], false, none⟩⟩,
          ⟨some ⟨"H", "Paris", "s", "News", none, ""⟩,
           ⟨"idB", 20, some (1, 2), [], true, none⟩⟩], none⟩
      else emptyRound
    elapsed := fun n => if n = 0 then 0 else 100000 }

/-- A run whose cache `findFirst` throws: the outer catch emits an `error`
frame and no `complete` frame follows. -/
def envDbThrows : DiscoveryEnv :=
  { rawQuery := ""
    normalizedKey := "Global News"
    scope := .global
    now0 := 1000000000
    db := []
    dbThrows := true
    thrownMessage := "Error: connection refused"
    rounds := fun _ => emptyRound
    elapsed := fun _ => 0 }

/-- A run whose single candidate declares event time 400000000 but is
processed at wall-clock time 5000: the emitted and persisted timestamp is
5000. -/
def envDeclaredTs : DiscoveryEnv :=
  { rawQuery := "paris"
    normalizedKey := "France - Paris"
    scope := .local
    now0 := 1000000000
    db := []
    dbThrows := false
    thrownMessage := ""
    rounds := fun n =>
      if n = 0 then
        ⟨true, true,
         [⟨some ⟨"H9", "Paris", "s", "News", some (.valid 400000000), ""⟩,
           ⟨"id9", 5000, some (7, 8), [], true, none⟩⟩], none⟩
      else emptyRound
    elapsed := fun n => if n = 0 then 0 else 100000 }

/-- A global-scope cache-miss run whose first round yields 20 accepted
candidates and whose second round would offer one more ("EXTRA"): the loop
stops at 20 even though 20 < 40 = targetCount, attempts = 1 < 10 and the
elapsed time is 0 < 90 s. -/
def envTwentyFound : DiscoveryEnv :=
  { rawQuery := ""
    normalizedKey := "Global News"
    scope := .global
    now0 := 1000000000
    db := []
    dbThrows := false
    thrownMessage := ""
    rounds := fun n =>
      if n = 0 then
        ⟨true, true,
         (List.range 20).map
           (fun k => simpleCall ("A" ++ toString k) ("id" ++ toString k)),
         none⟩
      else
        ⟨true, true, [simpleCall "EXTRA" "idextra"], none⟩
    elapsed := fun _ => 0 }

/-- The spec scenario for the loop: empty query, global scope, cache miss,
one round finding 5 candidates of which 4 geocode; the loop then starts a
second round. -/
def envScenarioFour : DiscoveryEnv :=
  { rawQuery := ""
    normalizedKey := "Global News"
    scope := .global
    now0 := 1000000000
    db := []
    dbThrows := false
    thrownMessage := ""
    rounds := fun n =>
      if n = 0 then
        ⟨true, true,
         [simpleCall "B0" "id0", simpleCall "B1" "id1",
          simpleCall "B2" "id2", simpleCall "B3" "id3",
          ⟨some ⟨"B4", "Nowhere", "s", "News", none, ""⟩,
           ⟨"id4", 0, none, [], true, none⟩⟩], none⟩
      else emptyRound
    elapsed := fun n => if n ≤ 1 then 0 else 100000 }

/-! ## Proofs -/

/-- `latestByRefresh` only ever returns its accumulator or a list member. -/
lemma latestByRefresh_mem :
    ∀ (l : List SearchQueryRec) (acc : Option SearchQueryRec)
      (q : SearchQueryRec), latestByRefresh acc l = some q →
      acc = some q ∨ q ∈ l := by
  intro l
  induction l with
  | nil => intro acc q h; exact Or.inl h
  | cons x rest ih =>
      intro acc q h
      rcases ih _ q h with hacc | hmem
      · cases acc with
        | none =>
            simp only [Option.some.injEq] at hacc
            exact Or.inr (hacc ▸ List.mem_cons_self x rest)
        | some b =>
            by_cases hcmp : x.timestamp > b.timestamp
            · simp only [hcmp, if_pos] at hacc
              simp only [Option.some.injEq] at hacc
              exact Or.inr (hacc ▸ List.mem_cons_self x rest)
            · simp only [hcmp, if_neg] at hacc
              exact Or.inl hacc
      · exact Or.inr (List.mem_cons_of_mem x hmem)

/-- C5: whenever the cache lookup returns a record, that record's refresh
timestamp is within the 6-hour window, and every linked item it surfaces
has its own timestamp within the 7-day window — an older event is never
returned even when its record is fresh. -/
theorem cacheLookup_fresh_windows (db : List SearchQueryRec) (key : String)
    (now : Nat) (q : SearchQueryRec)
    (h : cacheLookup db key now = some q) :
    now - SIX_HOURS < q.timestamp ∧
      ∀ it ∈ q.items, now - SEVEN_DAYS < it.timestamp := by
  unfold cacheLookup at h
  rcases hm : latestByRefresh none (db.filter (fun r =>
      r.normalizedKey == key && decide (now - SIX_HOURS < r.timestamp)))
    with _ | r
  · rw [hm] at h; exact absurd h (by simp)
  · rw [hm] at h
    simp only [Option.some.injEq] at h

    rcases latestByRefresh_mem _ _ _ hm with hacc | hmem
    · exact absurd hacc (by simp)
    · have hr := List.mem_filter.mp hmem
      have hfresh : now - SIX_HOURS < r.timestamp := by
        have := hr.2
        simp only [Bool.and_eq_true, decide_eq_true_eq] at this
        exact this.2
      constructor
      · rw [← h]; exact hfresh
      · intro it hit
        rw [← h] at hit
        simp only [List.mem_filter, decide_eq_true_eq] at hit
        exact hit.2

/-- A stored item 100 days old next to a fresh one, under a record
refreshed within the last 6 hours. -/
def staleItemW : StoredItem :=
  ⟨"i2", "Hold", "Paris", "s", "News", (1, 2), 1000, []⟩

def freshItemW : StoredItem :=
  ⟨"i1", "Hfresh", "Paris", "s", "News", (1, 2), 900000000, []⟩

def cacheDbW : List SearchQueryRec :=
  [⟨"qid", "orig", "France - Paris", 999000000, [freshItemW, staleItemW]⟩]

/-- Witness for C5: at `now = 1000000000` the lookup on `cacheDbW` returns
the record with only the fresh item, and both window bounds hold there. -/
theorem cacheLookup_fresh_windows_witness :
    1000000000 - SIX_HOURS < 999000000 ∧
      ∀ it ∈ [freshItemW], 1000000000 - SEVEN_DAYS < it.timestamp :=
  cacheLookup_fresh_windows cacheDbW "France - Paris" 1000000000
    ⟨"qid", "orig", "France - Paris", 999000000, [freshItemW]⟩ (by decide)

/-! ### Trace observer lemmas -/

lemma newsHeadlines_append (l₁ l₂ : List Ev) :
    newsHeadlines (l₁ ++ l₂) = newsHeadlines l₁ ++ newsHeadlines l₂ := by
  induction l₁ with
  | nil => rfl
  | cons e rest ih =>
      rcases e with f | it | h | ⟨h, i⟩ | h | ids | ids
      · cases f <;> simp [newsHeadlines, ih]
      all_goals simp [newsHeadlines, ih]

lemma newsIdsAcc_append (l₁ l₂ : List Ev) (acc : List String) :
    newsIdsAcc (l₁ ++ l₂) acc = newsIdsAcc l₂ (newsIdsAcc l₁ acc) := by
  induction l₁ generalizing acc with
  | nil => rfl
  | cons e rest ih =>
      rcases e with f | it | h | ⟨h, i⟩ | h | ids | ids
      · cases f <;> simp [newsIdsAcc, ih]
      all_goals simp [newsIdsAcc, ih]

lemma createsAfterEmit_append (l₁ l₂ : List Ev) (em : List String) :
    createsAfterEmit (l₁ ++ l₂) em =
      (createsAfterEmit l₁ em && createsAfterEmit l₂ (newsIdsAcc l₁ em)) := by
  induction l₁ generalizing em with
  | nil => simp [createsAfterEmit, newsIdsAcc]
  | cons e rest ih =>
      rcases e with f | it | h | ⟨h, i⟩ | h | ids | ids
      · cases f <;> simp [createsAfterEmit, newsIdsAcc, ih, Bool.and_assoc]
      all_goals simp [createsAfterEmit, newsIdsAcc, ih, Bool.and_assoc]

/-! ### Per-candidate lemmas -/

lemma processCall_no_complete (sda : Nat) (ex : List String) (c : ToolCall) :
    Ev.frame Frame.complete ∉ (processCall sda ex c).delta := by
  obtain ⟨a, nid, pt, geo, tws, sOk, rid⟩ := c
  cases a with
  | none => simp [processCall]
  | some args =>
      cases geo with
      | none =>
          simp only [processCall]
          split_ifs <;> simp
      | some coords =>
          cases sOk with
          | true =>
              simp only [processCall]
              split_ifs <;> simp
          | false =>
              cases rid with
              | none =>
                  simp only [processCall]
                  split_ifs <;> simp
              | some exId =>
                  simp only [processCall]
                  split_ifs <;> simp

lemma processCall_createsAfterEmit (sda : Nat) (ex : List String)
    (c : ToolCall) (em : List String) :
    createsAfterEmit (processCall sda ex c).delta em = true := by
  obtain ⟨a, nid, pt, geo, tws, sOk, rid⟩ := c
  cases a with
  | none => simp [processCall, createsAfterEmit]
  | some args =>
      cases geo with
      | none =>
          simp only [processCall]
          split_ifs <;> simp [createsAfterEmit]
      | some coords =>
          cases sOk with
          | true =>
              simp only [processCall]
              split_ifs <;> simp [createsAfterEmit]
          | false =>
              cases rid with
              | none =>
                  simp only [processCall]
                  split_ifs <;> simp [createsAfterEmit]
              | some exId =>
                  simp only [processCall]
                  split_ifs <;> simp [createsAfterEmit]

lemma processCall_newsHeadlines (sda : Nat) (ex : List String) (c : ToolCall)
    (hsave : c.env.saveOk = true) :
    newsHeadlines (processCall sda ex c).delta =
        (processCall sda ex c).newHeadlines ∧
      (processCall sda ex c).newHeadlines.Nodup ∧
      ∀ h ∈ (processCall sda ex c).newHeadlines, h ∉ ex := by
  obtain ⟨a, nid, pt, geo, tws, sOk, rid⟩ := c
  dsimp only at hsave
  subst hsave
  cases a with
  | none => simp [processCall, newsHeadlines]
  | some args =>
      cases geo with
      | none =>
          simp only [processCall]
          split_ifs <;> simp_all [newsHeadlines]
      | some coords =>
          simp only [processCall]
          split_ifs <;> simp_all [newsHeadlines]

/-- C9 (amended): for every processed candidate, the `news` frame it emits
and the row it persists carry `Date.now()` at processing time as their
timestamp (and the freshly drawn UUID as id); the candidate's declared
`args.timestamp` is used only for the 7-day filter and then discarded. -/
theorem fresh_item_uses_discovery_time (sda : Nat) (ex : List String)
    (c : ToolCall) :
    (∀ it, Ev.frame (Frame.news it) ∈ (processCall sda ex c).delta →
      it.timestamp = c.env.procTime ∧ it.id = c.env.newId) ∧
    (∀ it, Ev.dbCreate it ∈ (processCall sda ex c).delta →
      it.timestamp = c.env.procTime ∧ it.id = c.env.newId) := by
  obtain ⟨a, nid, pt, geo, tws, sOk, rid⟩ := c
  cases a with
  | none => simp [processCall]
  | some args =>
      cases geo with
      | none =>
          simp only [processCall]
          split_ifs <;> refine ⟨fun it hit => ?_, fun it hit => ?_⟩ <;>
            simp at hit
      | some coords =>
          cases sOk with
          | true =>
              simp only [processCall]
              split_ifs <;> refine ⟨fun it hit => ?_, fun it hit => ?_⟩ <;>
                simp at hit <;> subst hit <;> exact ⟨rfl, rfl⟩
          | false =>
              cases rid with
              | none =>
                  simp only [processCall]
                  split_ifs <;> refine ⟨fun it hit => ?_, fun it hit => ?_⟩ <;>
                    simp at hit <;> subst hit <;> exact ⟨rfl, rfl⟩
              | some exId =>
                  simp only [processCall]
                  split_ifs <;> refine ⟨fun it hit => ?_, fun it hit => ?_⟩ <;>
                    simp at hit <;> subst hit <;> exact ⟨rfl, rfl⟩

/-! ### The discovery loop emits no `complete` frame -/

lemma callsFold_no_complete (sda : Nat) (calls : List ToolCall) :
    ∀ (s : RunState) (created : List String),
      Ev.frame Frame.complete ∉ s.trace →
      Ev.frame Frame.complete ∉ (callsFold sda calls (s, created)).1.trace := by
  induction calls with
  | nil => intro s created h; exact h
  | cons c rest ih =>
      intro s created h
      simp only [callsFold]
      apply ih
      intro hmem
      rcases List.mem_append.mp hmem with hs | hd
      · exact h hs
      · exact processCall_no_complete _ _ _ hd


lemma narrate_no_complete (fc : Nat) (s : RunState)
    (h : Ev.frame Frame.complete ∉ s.trace) :
    Ev.frame Frame.complete ∉ (narrate fc s).trace := by
  unfold narrate
  dsimp only
  split_ifs
  · intro hmem
    rcases List.mem_append.mp hmem with hs | hd
    · exact h hs
    · simp at hd
  · exact h

lemma linkStep_no_complete (hasC : Bool) (exQ : Option String)
    (created : List String) (s : RunState)
    (h : Ev.frame Frame.complete ∉ s.trace) :
    Ev.frame Frame.complete ∉ (linkStep hasC exQ created s).trace := by
  unfold linkStep
  split_ifs <;> try exact h
  all_goals try
    (intro hmem
     rcases List.mem_append.mp hmem with hs | hd
     · exact h hs
     · simp at hd)
  rcases exQ with _ | q <;>
    (intro hmem
     rcases List.mem_append.mp hmem with hs | hd
     · exact h hs
     · simp at hd)

lemma runRound_no_complete (hasC : Bool) (sda fc : Nat) (r : Round)
    (s : RunState) (h : Ev.frame Frame.complete ∉ s.trace) :
    Ev.frame Frame.complete ∉ (runRound hasC sda fc r s).1.trace := by
  unfold runRound
  dsimp only
  split_ifs <;>
    first
      | exact narrate_no_complete fc s h
      | exact linkStep_no_complete hasC r.existingQ _ _
          (callsFold_no_complete sda r.calls (narrate fc s) []
            (narrate_no_complete fc s h))

lemma discoveryLoop_no_complete (hasC : Bool) (sda fc : Nat)
    (rounds : Nat → Round) (elapsed : Nat → Nat) :
    ∀ (fuel : Nat) (s : RunState), Ev.frame Frame.complete ∉ s.trace →
      Ev.frame Frame.complete ∉
        (discoveryLoop hasC sda fc rounds elapsed fuel s).trace := by
  intro fuel
  induction fuel with
  | zero => intro s h; exact h
  | succ n ih =>
      intro s h
      simp only [discoveryLoop]
      split_ifs
      · exact runRound_no_complete hasC sda fc _ s h
      · exact ih _ (runRound_no_complete hasC sda fc _ s h)
      · exact h

lemma replayEvents_no_complete (c : Option SearchQueryRec) (k : String) :
    Ev.frame Frame.complete ∉ (replayEvents c k).1 := by
  rcases c with _ | q
  · simp [replayEvents]
  · simp only [replayEvents]
    split_ifs
    · intro hmem
      rcases List.mem_append.mp hmem with hs | hd
      · simp at hs
      · rcases List.mem_map.mp hd with ⟨it, _, hit⟩
        simp at hit
    · simp

lemma getLast?_append_singleton {α : Type} (l : List α) (a : α) :
    (l ++ [a]).getLast? = some a :=
  List.getLast?_concat l

lemma discoveryBody_shape (env : DiscoveryEnv) :
    ∃ l, discoveryBody env = l ++ [Ev.frame Frame.complete] ∧
      Ev.frame Frame.complete ∉ l := by
  refine ⟨_, rfl, ?_⟩
  apply discoveryLoop_no_complete
  intro hmem
  rcases List.mem_append.mp hmem with hm | hscan
  · rcases List.mem_append.mp hm with hh | hr
    · simp [streamHead] at hh
    · exact replayEvents_no_complete _ _ hr
  · simp [scanFrame] at hscan

/-- C4 (amended): on every run whose setup does not throw, the emitted
sequence contains exactly one `complete` frame and it is the final event;
on the caught-exception path an `error` frame is emitted and no `complete`
frame follows (see the counterexample). -/
theorem stream_completes_once (env : DiscoveryEnv)
    (h : env.dbThrows = false) :
    (runStream env).count (Ev.frame Frame.complete) = 1 ∧
      (runStream env).getLast? = some (Ev.frame Frame.complete) := by
  obtain ⟨l, hEq, hnc⟩ := discoveryBody_shape env
  have hrun : runStream env = l ++ [Ev.frame Frame.complete] := by
    unfold runStream
    rw [if_neg (by simp [h]), hEq]
  rw [hrun]
  constructor
  · have h0 : l.count (Ev.frame Frame.complete) = 0 :=
      List.count_eq_zero.mpr hnc
    simp [List.count_append, h0]
  · exact getLast?_append_singleton l _

/-- Witness for C4 (amended) on a concrete non-throwing run. -/
theorem stream_completes_once_witness :
    (runStream envScenarioFour).count (Ev.frame Frame.complete) = 1 ∧
      (runStream envScenarioFour).getLast? =
        some (Ev.frame Frame.complete) :=
  stream_completes_once envScenarioFour rfl

/-- C4 counterexample: when the cache lookup throws, the caught-exception
path emits an `error` frame and the run ends with **no** `complete` frame,
refuting the claim that the `complete` frame is also emitted on the path
where an exception is caught and an `error` frame is emitted. -/
theorem error_path_missing_complete :
    runStream envDbThrows =
      [Ev.frame .connected, Ev.frame (.status "Analyzing query scope..."),
       Ev.frame (.error "Error: connection refused")] ∧
    (runStream envDbThrows).count (Ev.frame Frame.complete) = 0 := by
  constructor <;> decide

/-! ### Every successful persistence follows its `news` frame -/

lemma narrate_createsAfterEmit (fc : Nat) (s : RunState)
    (h : ∀ em, createsAfterEmit s.trace em = true) :
    ∀ em, createsAfterEmit (narrate fc s).trace em = true := by
  intro em
  unfold narrate
  dsimp only
  split_ifs
  · rw [createsAfterEmit_append]
    simp [h em, createsAfterEmit]
  · exact h em

lemma linkStep_createsAfterEmit (hasC : Bool) (exQ : Option String)
    (created : List String) (s : RunState)
    (h : ∀ em, createsAfterEmit s.trace em = true) :
    ∀ em, createsAfterEmit (linkStep hasC exQ created s).trace em = true := by
  intro em
  unfold linkStep
  split_ifs <;> try exact h em
  all_goals try (rw [createsAfterEmit_append]; simp [h em, createsAfterEmit])
  rcases exQ with _ | q <;>
    (rw [createsAfterEmit_append]; simp [h em, createsAfterEmit])

lemma callsFold_createsAfterEmit (sda : Nat) (calls : List ToolCall) :
    ∀ (s : RunState) (created : List String),
      (∀ em, createsAfterEmit s.trace em = true) →
      ∀ em, createsAfterEmit (callsFold sda calls (s, created)).1.trace em
        = true := by
  induction calls with
  | nil => intro s created h; exact h
  | cons c rest ih =>
      intro s created h
      simp only [callsFold]
      apply ih
      intro em
      rw [createsAfterEmit_append]
      simp [h em, processCall_createsAfterEmit]

lemma runRound_createsAfterEmit (hasC : Bool) (sda fc : Nat) (r : Round)
    (s : RunState) (h : ∀ em, createsAfterEmit s.trace em = true) :
    ∀ em, createsAfterEmit (runRound hasC sda fc r s).1.trace em = true := by
  unfold runRound
  dsimp only
  split_ifs <;>
    first
      | exact narrate_createsAfterEmit fc s h
      | exact linkStep_createsAfterEmit hasC r.existingQ _ _
          (callsFold_createsAfterEmit sda r.calls (narrate fc s) []
            (narrate_createsAfterEmit fc s h))

lemma discoveryLoop_createsAfterEmit (hasC : Bool) (sda fc : Nat)
    (rounds : Nat → Round) (elapsed : Nat → Nat) :
    ∀ (fuel : Nat) (s : RunState),
      (∀ em, createsAfterEmit s.trace em = true) →
      ∀ em, createsAfterEmit
        (discoveryLoop hasC sda fc rounds elapsed fuel s).trace em = true := by
  intro fuel
  induction fuel with
  | zero => intro s h; exact h
  | succ n ih =>
      intro s h
      simp only [discoveryLoop]
      split_ifs
      · exact runRound_createsAfterEmit hasC sda fc _ s h
      · exact ih _ (runRound_createsAfterEmit hasC sda fc _ s h)
      · exact h

lemma replayEvents_createsAfterEmit (c : Option SearchQueryRec)
    (k : String) :
    ∀ em, createsAfterEmit (replayEvents c k).1 em = true := by
  have hmap : ∀ (items : List StoredItem) (em : List String),
      createsAfterEmit
        (items.map (fun it => Ev.frame (Frame.news (replayItem it)))) em
        = true := by
    intro items
    induction items with
    | nil => intro em; simp [createsAfterEmit]
    | cons it rest ih => intro em; simp [createsAfterEmit, ih]
  intro em
  rcases c with _ | q
  · simp [replayEvents, createsAfterEmit]
  · simp only [replayEvents]
    split_ifs
    · rw [createsAfterEmit_append]
      simp [createsAfterEmit, hmap]
    · simp [createsAfterEmit]

/-- C1 (amended): in every run, persistence happens only after emission —
every successful `dbCreate` of the trace is preceded by the `news` frame of
the same item (the frame is enqueued, then the save is attempted).  An
emitted frame need not be persisted: when the save throws and recovery
finds nothing, the already-emitted event is never persisted (see the
counterexample). -/
theorem persist_follows_emission (env : DiscoveryEnv) :
    createsAfterEmit (runStream env) [] = true := by
  unfold runStream
  split_ifs
  · simp [streamHead, createsAfterEmit]
  · simp only [discoveryBody]
    rw [createsAfterEmit_append, Bool.and_eq_true]
    refine ⟨?_, by simp [createsAfterEmit]⟩
    apply discoveryLoop_createsAfterEmit
    intro em
    dsimp only
    rw [createsAfterEmit_append, createsAfterEmit_append,
      Bool.and_eq_true, Bool.and_eq_true]
    exact ⟨⟨by simp [streamHead, createsAfterEmit],
      replayEvents_createsAfterEmit _ _ _⟩,
      by simp [scanFrame, createsAfterEmit]⟩

/-- C1 counterexample: in `envSaveFails` a `news` frame for item `id1` is
enqueued, but its save fails and recovery finds nothing, so no point of the
trace persists it — the scan for "every `news` frame concerns an already
persisted event" comes out false, and the headline really was emitted. -/
theorem news_frame_without_persistence :
    newsPersistedBefore (runStream envSaveFails)
        (dbItemIds envSaveFails.db) = false ∧
      newsHeadlines (runStream envSaveFails) = ["H1"] := by
  constructor <;> decide

/-! ### No duplicate headlines when every save succeeds -/

lemma narrate_newsHeadlines (fc : Nat) (s : RunState) :
    newsHeadlines (narrate fc s).trace = newsHeadlines s.trace ∧
      (narrate fc s).existingHeadlines = s.existingHeadlines := by
  unfold narrate
  dsimp only
  split_ifs
  · simp [newsHeadlines_append, newsHeadlines]
  · exact ⟨rfl, rfl⟩

lemma linkStep_newsHeadlines (hasC : Bool) (exQ : Option String)
    (created : List String) (s : RunState) :
    newsHeadlines (linkStep hasC exQ created s).trace =
        newsHeadlines s.trace ∧
      (linkStep hasC exQ created s).existingHeadlines =
        s.existingHeadlines := by
  unfold linkStep
  split_ifs <;> try exact ⟨rfl, rfl⟩
  all_goals try exact ⟨by simp [newsHeadlines_append, newsHeadlines], rfl⟩
  rcases exQ with _ | q <;>
    exact ⟨by simp [newsHeadlines_append, newsHeadlines], rfl⟩

lemma callsFold_nodup (sda : Nat) (calls : List ToolCall) :
    ∀ (s : RunState) (created : List String),
      (∀ c ∈ calls, c.env.saveOk = true) →
      (newsHeadlines s.trace).Nodup →
      (∀ h ∈ newsHeadlines s.trace, h ∈ s.existingHeadlines) →
      (newsHeadlines (callsFold sda calls (s, created)).1.trace).Nodup ∧
        ∀ h ∈ newsHeadlines (callsFold sda calls (s, created)).1.trace,
          h ∈ (callsFold sda calls (s, created)).1.existingHeadlines := by
  induction calls with
  | nil => intro s created _ hnd hsub; exact ⟨hnd, hsub⟩
  | cons c rest ih =>
      intro s created hsave hnd hsub
      obtain ⟨hdelta, hnodupNew, hfreshNew⟩ :=
        processCall_newsHeadlines sda s.existingHeadlines c
          (hsave c (List.mem_cons_self c rest))
      simp only [callsFold]
      apply ih
      · intro c' hc'
        exact hsave c' (List.mem_cons_of_mem c hc')
      · dsimp only
        rw [newsHeadlines_append, hdelta]
        apply List.Nodup.append hnd hnodupNew
        intro h hh hh'
        exact hfreshNew h hh' (hsub h hh)
      · dsimp only
        rw [newsHeadlines_append, hdelta]
        intro h hh
        rcases List.mem_append.mp hh with hold | hnew
        · exact List.mem_append_left _ (hsub h hold)
        · exact List.mem_append_right _ hnew

lemma runRound_nodup (hasC : Bool) (sda fc : Nat) (r : Round) (s : RunState)
    (hsave : ∀ c ∈ r.calls, c.env.saveOk = true)
    (hnd : (newsHeadlines s.trace).Nodup)
    (hsub : ∀ h ∈ newsHeadlines s.trace, h ∈ s.existingHeadlines) :
    (newsHeadlines (runRound hasC sda fc r s).1.trace).Nodup ∧
      ∀ h ∈ newsHeadlines (runRound hasC sda fc r s).1.trace,
        h ∈ (runRound hasC sda fc r s).1.existingHeadlines := by
  obtain ⟨hnarrTr, hnarrEx⟩ := narrate_newsHeadlines fc s
  have hndN : (newsHeadlines (narrate fc s).trace).Nodup := by
    rw [hnarrTr]; exact hnd
  have hsubN : ∀ h ∈ newsHeadlines (narrate fc s).trace,
      h ∈ (narrate fc s).existingHeadlines := by
    rw [hnarrTr, hnarrEx]; exact hsub
  unfold runRound
  dsimp only
  split_ifs <;>
    first
      | exact ⟨hndN, hsubN⟩
      | (obtain ⟨hfoldNd, hfoldSub⟩ :=
           callsFold_nodup sda r.calls (narrate fc s) [] hsave hndN hsubN
         obtain ⟨hlinkTr, hlinkEx⟩ := linkStep_newsHeadlines hasC r.existingQ
           (callsFold sda r.calls (narrate fc s, [])).2
           (callsFold sda r.calls (narrate fc s, [])).1
         constructor
         · rw [hlinkTr]; exact hfoldNd
         · rw [hlinkTr, hlinkEx]; exact hfoldSub)

lemma discoveryLoop_nodup (hasC : Bool) (sda fc : Nat)
    (rounds : Nat → Round) (elapsed : Nat → Nat)
    (hsave : ∀ n, ∀ c ∈ (rounds n).calls, c.env.saveOk = true) :
    ∀ (fuel : Nat) (s : RunState),
      (newsHeadlines s.trace).Nodup →
      (∀ h ∈ newsHeadlines s.trace, h ∈ s.existingHeadlines) →
      (newsHeadlines
        (discoveryLoop hasC sda fc rounds elapsed fuel s).trace).Nodup := by
  intro fuel
  induction fuel with
  | zero => intro s hnd _; exact hnd
  | succ n ih =>
      intro s hnd hsub
      simp only [discoveryLoop]
      split_ifs
      · exact (runRound_nodup hasC sda fc _ s (hsave _) hnd hsub).1
      · exact ih _ (runRound_nodup hasC sda fc _ s (hsave _) hnd hsub).1
          (runRound_nodup hasC sda fc _ s (hsave _) hnd hsub).2
      · exact hnd

lemma replayEvents_newsHeadlines (c : Option SearchQueryRec) (k : String) :
    newsHeadlines (replayEvents c k).1 = (replayEvents c k).2 := by
  have hmap : ∀ (items : List StoredItem),
      newsHeadlines
          (items.map (fun it => Ev.frame (Frame.news (replayItem it)))) =
        items.map StoredItem.headline := by
    intro items
    induction items with
    | nil => rfl
    | cons it rest ih =>
        simp only [List.map_cons, newsHeadlines]
        rw [ih]
        rfl
  rcases c with _ | q
  · rfl
  · simp only [replayEvents]
    split_ifs
    · simp [newsHeadlines_append, newsHeadlines, hmap]
    · rfl

/-- C3 (amended): within a single run, provided the replayed cache items
carry pairwise distinct headlines and every fresh save succeeds, the
multiset of headlines carried by `news` frames has no duplicates.  (When a
save fails, the headline is not recorded in the exclusion list and may be
emitted again — see the counterexample.) -/
theorem run_headlines_nodup (env : DiscoveryEnv)
    (hcache : ∀ q, cacheLookup env.db env.normalizedKey env.now0 = some q →
      (q.items.map StoredItem.headline).Nodup)
    (hsave : ∀ n, ∀ c ∈ (env.rounds n).calls, c.env.saveOk = true) :
    (newsHeadlines (runStream env)).Nodup := by
  unfold runStream
  split_ifs
  · simp [streamHead, newsHeadlines]
  · simp only [discoveryBody]
    rw [newsHeadlines_append]
    have htail : newsHeadlines [Ev.frame Frame.complete] = [] := rfl
    rw [htail, List.append_nil]
    apply discoveryLoop_nodup _ _ _ _ _ hsave
    · dsimp only
      rw [newsHeadlines_append, newsHeadlines_append,
        replayEvents_newsHeadlines]
      have h1 : newsHeadlines streamHead = [] := rfl
      have h2 : newsHeadlines [scanFrame env.scope
          (replayEvents (cacheLookup env.db env.normalizedKey env.now0)
            env.normalizedKey).2.length] = [] := rfl
      rw [h1, h2, List.nil_append, List.append_nil]
      rcases hc : cacheLookup env.db env.normalizedKey env.now0 with _ | q
      · simp [replayEvents]
      · simp only [replayEvents]
        split_ifs
        · exact hcache q hc
        · simp
    · dsimp only
      rw [newsHeadlines_append, newsHeadlines_append,
        replayEvents_newsHeadlines]
      intro h hh
      simp only [newsHeadlines, streamHead] at hh
      rcases List.mem_append.mp hh with hh' | hh'
      · rcases List.mem_append.mp hh' with hh'' | hh''
        · simp [newsHeadlines] at hh''
        · exact hh''
      · simp [newsHeadlines, scanFrame] at hh'

/-- Witness for C3 (amended): a cache-miss run with two distinct fresh
candidates, both saved, emits two distinct headlines. -/
theorem run_headlines_nodup_witness :
    (newsHeadlines (runStream envScenarioFour)).Nodup :=
  run_headlines_nodup envScenarioFour
    (fun q hq => by simp [cacheLookup, latestByRefresh, envScenarioFour] at hq)
    (fun n c hc => by
      by_cases hn : n = 0
      · subst hn
        simp only [envScenarioFour, if_pos rfl] at hc
        fin_cases hc <;> rfl
      · simp [envScenarioFour, hn, emptyRound] at hc)

/-- C3 counterexample: in `envDupHeadline` the first candidate's save
fails (recovery finds nothing), its headline is never recorded, and a
second candidate with the same headline is emitted again: the run's `news`
headlines are `["H", "H"]`. -/
theorem duplicate_headline_emitted :
    newsHeadlines (runStream envDupHeadline) = ["H", "H"] ∧
      ¬(newsHeadlines (runStream envDupHeadline)).Nodup := by
  constructor <;> decide

/-- C2 counterexample: the loop's bound is `fetchCount` (clamped to 20),
not `targetCount`.  In the global cache-miss run `envTwentyFound` the
spec's condition `20 < 40 = targetCount` (with `attempts = 1 < 10`,
`elapsed = 0 < 90 s`) says the loop continues, but the code's condition is
false at 20 and the run stops: round 2's candidate "EXTRA" is never
emitted. -/
theorem loop_bound_is_fetchCount :
    specLoopCond 20 .global 1 0 = true ∧
      fetchCountOf .global 0 = 20 ∧
      loopCond 20 (fetchCountOf .global 0) 1 0 = false ∧
      (newsHeadlines (runStream envTwentyFound)).length = 20 ∧
      "EXTRA" ∉ newsHeadlines (runStream envTwentyFound) := by
  refine ⟨by decide, by decide, by decide, by decide, by decide⟩

/-- C2 (amended): the loop continues while `fetchedCount < fetchCount AND
attempts < 10 AND elapsed < 90 s`, where
`fetchCount = min (max (targetCount - cachedCount) 5) 20` and targetCount
is 40/20/5 by scope.  In the spec's scenario (empty query, global scope,
cache miss, one round of 5 candidates of which 4 geocode) exactly 4 `news`
events are emitted and the loop starts round 2 because `4 < 20`. -/
theorem loop_continues_scenario :
    fetchCountOf .global 0 = 20 ∧
      loopCond 4 (fetchCountOf .global 0) 1 0 = true ∧
      newsHeadlines (runStream envScenarioFour) = ["B0", "B1", "B2", "B3"] ∧
      Ev.frame (.status "Scanning for more... (4/20 found)") ∈
        runStream envScenarioFour := by
  refine ⟨by decide, by decide, by decide, by decide⟩

/-- The candidate of `envDeclaredTs`. -/
def declaredTsCall : ToolCall :=
  ⟨some ⟨"H9", "Paris", "s", "News", some (.valid 400000000), ""⟩,
   ⟨"id9", 5000, some (7, 8), [], true, none⟩⟩

/-- The item `envDeclaredTs` emits and persists. -/
def declaredTsItem : NewsItem :=
  ⟨"id9", "H9", "Paris", "s", "News", (7, 8), 5000, []⟩

/-- C9 counterexample: the candidate of `envDeclaredTs` declares event
time 400000000, yet the emitted (and persisted) item carries the
wall-clock processing time 5000. -/
theorem declared_timestamp_ignored :
    (newsItemsOf (runStream envDeclaredTs)).map NewsItem.timestamp =
        [5000] ∧
      (envDeclaredTs.rounds 0).calls.map (fun c => c.args.map Args.timestamp)
        = [some (some (.valid 400000000))] ∧
      (5000 : Nat) ≠ 400000000 := by
  refine ⟨by decide, by decide, by decide⟩

/-- Witness for C9 (amended): the concrete candidate `declaredTsCall` is
processed at wall-clock time 5000 and both its frame payload and its
persisted row carry 5000. -/
theorem fresh_item_uses_discovery_time_witness :
    declaredTsItem.timestamp = 5000 ∧ declaredTsItem.id = "id9" :=
  (fresh_item_uses_discovery_time 395200000 [] declaredTsCall).1
    declaredTsItem (by decide)

/-! ### The social evidence fetcher never yields posts on failures -/

lemma fetchVariationLoop_all_fail (xapi : String → VarOutcome) :
    ∀ (vs : List String),
      (∀ v ∈ vs, (xapi (cleanQueryOf v)).yieldsNoPost = true) →
      fetchVariationLoop xapi vs = [] := by
  intro vs
  induction vs with
  | nil => intro _; rfl
  | cons v rest ih =>
      intro h
      have hv := h v (List.mem_cons_self v rest)
      have hrest : ∀ u ∈ rest, (xapi (cleanQueryOf u)).yieldsNoPost = true :=
        fun u hu => h u (List.mem_cons_of_mem v hu)
      rcases hx : xapi (cleanQueryOf v) with _ | st | data
      · simp only [fetchVariationLoop, hx]
        exact ih hrest
      · simp only [fetchVariationLoop, hx]
        split_ifs
        · rfl
        · exact ih hrest
      · rw [hx] at hv
        simp only [VarOutcome.yieldsNoPost, Bool.or_eq_true,
          decide_eq_true_eq] at hv
        simp only [fetchVariationLoop, hx]
        split_ifs with h1 h2
        · exact ih hrest
        · exfalso
          rcases hv with h0 | h0
          · exact h1 h0
          · omega
        · exact ih hrest

/-- C8: the social evidence fetcher never fails: with no bearer token, and
likewise when every query variation's response is a failure (throw, HTTP
error, empty or fully filtered result set), it returns `[]`; and the
pipeline still emits and persists a candidate whose tweet fetch returned
`[]`, with an empty post list, instead of discarding it. -/
theorem social_fetch_failure_tolerated (xapi : String → VarOutcome)
    (query headline tok : String)
    (hfail : ∀ v ∈ queryVariations query headline,
      (xapi (cleanQueryOf v)).yieldsNoPost = true)
    (sda : Nat) (ex : List String) (args : Args) (cenv : CandEnv)
    (coords : Int × Int)
    (hh : ¬args.headline = "") (hl : ¬args.location = "")
    (hdup : args.headline ∉ ex)
    (hts : ∀ t, args.timestamp = some (.valid t) → ¬t < sda)
    (hgeo : cenv.geocode = some coords)
    (hsq : ¬args.search_query = "")
    (htw : cenv.tweets = [])
    (hsave : cenv.saveOk = true) :
    fetchRealTweets none xapi query headline = [] ∧
      fetchRealTweets (some tok) xapi query headline = [] ∧
      Ev.frame (Frame.news ⟨cenv.newId, args.headline, args.location,
          args.summary,
          (if args.category = "" then "General" else args.category),
          coords, cenv.procTime, []⟩) ∈
        (processCall sda ex ⟨some args, cenv⟩).delta ∧
      Ev.dbCreate ⟨cenv.newId, args.headline, args.location, args.summary,
          (if args.category = "" then "General" else args.category),
          coords, cenv.procTime, []⟩ ∈
        (processCall sda ex ⟨some args, cenv⟩).delta := by
  refine ⟨rfl, fetchVariationLoop_all_fail xapi _ hfail, ?_, ?_⟩ <;>
    · obtain ⟨nid, pt, geo, tws, sOk, rid⟩ := cenv
      dsimp only at hgeo htw hsave
      subst hgeo htw hsave
      have hts' : ¬((match args.timestamp with
          | some (TsVal.valid t) => decide (t < sda)
          | _ => false) = true) := by
        rcases htsc : args.timestamp with _ | tv
        · simp
        · rcases tv with _ | t
          · simp
          · simp only [decide_eq_true_eq]
            exact hts t htsc
      simp only [processCall]
      rw [if_neg (show ¬(args.headline = "" ∨ args.location = "") from
            by tauto),
          if_neg hdup, if_neg hts', if_neg hsq]
      simp

/-- Witness for C8: with every search response throwing, the fetcher
returns `[]` (with and without a token), and the candidate "H8" is still
emitted and persisted with an empty post list. -/
theorem social_fetch_failure_tolerated_witness :
    fetchRealTweets none (fun _ => VarOutcome.throwErr) "quake" "H" = [] ∧
      fetchRealTweets (some "tok") (fun _ => VarOutcome.throwErr) "quake" "H"
        = [] ∧
      Ev.frame (Frame.news ⟨"id8", "H8", "Paris", "s", "General", (1, 2), 7,
          []⟩) ∈
        (processCall 0 [] ⟨some ⟨"H8", "Paris", "s", "", none, "quake"⟩,
          ⟨"id8", 7, some (1, 2), [], true, none⟩⟩).delta ∧
      Ev.dbCreate ⟨"id8", "H8", "Paris", "s", "General", (1, 2), 7, []⟩ ∈
        (processCall 0 [] ⟨some ⟨"H8", "Paris", "s", "", none, "quake"⟩,
          ⟨"id8", 7, some (1, 2), [], true, none⟩⟩).delta :=
  social_fetch_failure_tolerated (fun _ => VarOutcome.throwErr) "quake" "H"
    "tok" (by decide) 0 [] ⟨"H8", "Paris", "s", "", none, "quake"⟩
    ⟨"id8", 7, some (1, 2), [], true, none⟩ (1, 2) (by decide) (by decide)
    (by decide) (fun t h => nomatch h) rfl (by decide) rfl rfl
